import Mathlib

/-!
Verification of the globalDB v7→v8 upgrade step (`rotkehlchen/globaldb/upgrades/v7_v8.py`).

The store is shallowly embedded: `evm_tokens` and `general_cache` are lists of
rows, every other table (and every other column of `evm_tokens`) is abstracted
into an opaque `String` component.  The SQL statements executed by the step are
given their SQLite meaning as pure state transformers.  External collaborators
that live outside this file's source — the timestamp provider `ts_now`, the
transaction context `write_ctx`, the logging decorator `enter_exit_debug_log`,
and the `general_cache` uniqueness constraint — are modelled from the spec, as
marked in their doc comments.
-/

namespace V7V8

/-- One row of the `evm_tokens` table: the `identifier` and `protocol` columns
are modelled explicitly (`protocol = none` is SQL NULL); every other column of
the row is abstracted into the opaque field `otherCols`. -/
structure EvmTokenRow where
  identifier : String
  protocol : Option String
  otherCols : String
  deriving DecidableEq

/-- One row of the `general_cache` table, columns `(key, value, last_queried_ts)`. -/
structure CacheRow where
  key : String
  value : String
  last_queried_ts : Nat
  deriving DecidableEq

/-- The persistent store: the two tables touched by the upgrade, plus an opaque
component standing for every other table of the database. -/
structure DBState where
  evm_tokens : List EvmTokenRow
  general_cache : List CacheRow
  otherTables : String
  deriving DecidableEq

/-- `ASSETS_TO_WHITELIST` from `v7_v8.py`: the fixed tuple of 41 previously
mis-classified asset identifiers, transcribed verbatim. -/
def ASSETS_TO_WHITELIST : List String := [
  "eip155:1/erc20:0x2ecB13A8c458c379c4d9a7259e202De03c8F3D19",  -- Block-Chain.com(BC)
  "eip155:1/erc20:0xA0b73E1Ff0B80914AB6fe0444E65848C4C34450b",  -- Crypto.com Chain(CRO)
  "eip155:1/erc20:0xB70835D7822eBB9426B56543E391846C107bd32C",  -- Game.com(GTC)
  "eip155:1/erc20:0x9C78EE466D6Cb57A4d01Fd887D2b5dFb2D46288f",  -- MUST (Cometh)(MUST)
  "eip155:1/erc20:0xB63B606Ac810a52cCa15e44bB630fd42D8d1d83d",  -- Crypto.com(MCO)
  "eip155:1/erc20:0x905E337c6c8645263D3521205Aa37bf4d034e745",  -- doc.com Token(MTC)
  "eip155:1/erc20:0x6863bE0e7CF7ce860A574760e9020D519a8bDC47",  -- On.Live(ONL)
  "eip155:1/erc20:0x9B02dD390a603Add5c07f9fd9175b7DABE8D63B7",  -- Shopping.io(SPI)
  "eip155:1/erc20:0xD6Ea40597Be05c201845c0bFd2e96A60bACde267",  -- Curve Compound Pool yVault
  "eip155:1/erc20:0xf2db9a7c0ACd427A680D640F02d90f6186E71725",  -- Curve LINK Pool yVault
  "eip155:1/erc20:0x50f09629d0afDF40398a3F317cc676cA9132055c",  -- EVAI.IO(EVAI)
  "eip155:1/erc20:0xd3E4Ba569045546D09CF021ECC5dFe42b1d7f6E4",  -- Morpheus.Network(MNW)
  "eip155:137/erc20:0xd7c8469c7eC40f853dA5f651DE81b45aeD47e5aB",  -- PotCoin.com POT(POT)
  "eip155:43114/erc20:0xbd3936eC8D83A5D4e73ecA625eCFa006da8C8F52",  -- UREEQA Token(URQA)
  "eip155:56/erc20:0xCB6409696c58aA777317dbdfaa8bab4AC8e39Eea",  -- PeerEx_Network(PERX)
  "eip155:56/erc20:0x78A18Db278F9c7c9657F61dA519e6Ef43794DD5D",  -- Shopping.io on BSC(SPI)
  "eip155:56/erc20:0x39d4549908e7Adcee9b439429294eEb4c65c2C9e",  -- HORD Token(HORD)
  "eip155:56/erc20:0x431e0cD023a32532BF3969CddFc002c00E98429d",  -- XCAD Token(XCAD)
  "eip155:56/erc20:0x959229D94c9060552daea25AC17193bcA65D7884",  -- IOI Token(IOI)
  "eip155:56/erc20:0x686318000d982bc8dCC1cdCF8fFd22322F0960Ed",  -- OpulousToken(OPUL)
  "eip155:56/erc20:0x9CD9C5a44CB8fab39b2Ee3556F5c439e65E4fDdD",  -- MARS4
  "eip155:56/erc20:0xeCEB87cF00DCBf2D4E2880223743Ff087a995aD9",  -- NUM Token(NUM)
  "eip155:56/erc20:0x368ce786Ea190f32439074e8d22e12ecb718B44c",  -- Epik Prime(EPIK)
  "eip155:56/erc20:0x0F5d8CD195a4539bcf2eC6118C6dA50287c6d5f5",  -- Gold Fever Native Gold(NGL)
  "eip155:56/erc20:0x52fe7b439753092f584917e3EFEa86A1cFD210f9",  -- Trazable(TRZ)
  "eip155:56/erc20:0x3a06212763CAF64bf101DaA4b0cEbb0cD393fA1a",  -- delta.theta(DLTA)
  "eip155:56/erc20:0x6a6Ccf15B38DA4b5B0eF4C8fe9FefCB472A893F9",  -- MoonStarter.net(MNST)
  "eip155:56/erc20:0xBd2949F67DcdC549c6Ebe98696449Fa79D988A9F",  -- Wrapped MTRG(MTRG)
  "eip155:56/erc20:0x2235e79086dd23135119366da45851c741874e5B",  -- CREDI
  "eip155:1/erc20:0x4185cf99745B2a20727B37EE798193DD4a56cDfa",  -- DEUS Synthetic Coinbase IOU
  "eip155:1/erc20:0x1c899dED01954d0959E034b62a728e7fEbE593b0",  -- stLINK-f
  "eip155:1/erc20:0xc56c2b7e71B54d38Aab6d52E94a04Cbfa8F604fA",  -- Z.com USD(ZUSD)
  "eip155:1/erc20:0x96Ea6AF74Af09522fCB4c28C269C26F59a31ced6",  -- curve.fi/link(yvlinkCRV)
  "eip155:1/erc20:0x4f018C06810Ea979F0E8a5D73CB8aa977Ba17aBA",  -- EtherTulip.com(PETAL-f)
  "eip155:1/erc20:0xc29259ea3f13778B8985014fB4b1b8e7DC5d5C94",  -- EtherTulip.com(PETALrai-f)
  "eip155:1/erc20:0x1974e843Fcf3627f8999544F3842bF58BB921ca2",  -- liq_ETH_LINK(ETH LINK-f)
  "eip155:1/erc20:0x5b1FDc01f028C2347ab5fddB4D1effBf82a411d3",  -- liq_CRV_LINK(CRV LINK-f)
  "eip155:1/erc20:0x6BC08509B36A98E829dFfAD49Fde5e412645d0a3",  -- WoofWork.io(WOOF)
  "eip155:1/erc20:0xA49d7499271aE71cd8aB9Ac515e6694C755d400c",  -- Mute.io(MUTE)
  "eip155:10/erc20:0xb396b31599333739A97951b74652c117BE86eE1D",  -- Davos.xyz USD(DUSD)
  "eip155:1/erc20:0xaA247c0D81B83812e1ABf8bAB078E4540D87e3fB"   -- meson.network(MSN)
]

/-- The cache key used by the step, `SPAM_ASSET_FALSE_POSITIVE`. -/
def SPAM_KEY : String := "SPAM_ASSET_FALSE_POSITIVE"

/-- SQLite meaning of one execution of
`UPDATE evm_tokens SET protocol=NULL WHERE identifier=?` with parameter
`identifier`: every row whose identifier column equals the parameter gets its
protocol column set to NULL; nothing else changes. -/
def updateProtocolNull (identifier : String) (s : DBState) : DBState :=
  { s with evm_tokens := s.evm_tokens.map fun r =>
      if r.identifier = identifier then { r with protocol := none } else r }

/-- Whether `general_cache` already holds a row with the given (key, value) pair. -/
def cacheHasKeyValue (s : DBState) (key value : String) : Bool :=
  s.general_cache.any fun r => r.key = key && r.value = value

/-- SQLite meaning of one execution of
`INSERT OR IGNORE INTO general_cache(key, value, last_queried_ts) VALUES (?, ?, ?)`.
Modelled from the spec: the `general_cache` schema is not part of this file's
source; per the spec it is a generic key/value/timestamp cache with
insert-if-absent semantics, so the conflict target is the (key, value) pair —
if a row with the same key and value exists the statement is a no-op,
otherwise the new row is appended. -/
def insertOrIgnoreCache (key value : String) (ts : Nat) (s : DBState) : DBState :=
  if cacheHasKeyValue s key value then s
  else { s with general_cache := s.general_cache ++ [⟨key, value, ts⟩] }

/-- `write_cursor.executemany` on the UPDATE statement: executes the statement
once per parameter tuple, in order. -/
def executemanyUpdateProtocolNull (ids : List String) (s : DBState) : DBState :=
  match ids with
  | [] => s
  | id :: rest => executemanyUpdateProtocolNull rest (updateProtocolNull id s)

/-- `write_cursor.executemany` on the INSERT OR IGNORE statement: executes the
statement once per `(key, value, last_queried_ts)` parameter tuple, in order. -/
def executemanyInsertCache (rows : List (String × String × Nat)) (s : DBState) : DBState :=
  match rows with
  | [] => s
  | kvt :: rest => executemanyInsertCache rest (insertOrIgnoreCache kvt.1 kvt.2.1 kvt.2.2 s)

/-- Modelled from the spec: the external timestamp provider `ts_now()`
(`rotkehlchen/utils/misc.py`, not under this file's source).  A run is
parameterised by the stream `clock` of successive readings; `n` counts the
consultations made so far, and one call returns the next reading together with
the advanced counter. -/
def ts_now (clock : Nat → Nat) (n : Nat) : Nat × Nat := (clock n, n + 1)

/-- `fix_detected_spam_tokens` transcribed from `v7_v8.py`: first the
executemany UPDATE over `ASSETS_TO_WHITELIST`, then one `ts_now()` call, then
the executemany INSERT OR IGNORE of `(SPAM_ASSET_FALSE_POSITIVE, asset_id,
current_ts)` per asset.  State is the store paired with the clock counter. -/
def fix_detected_spam_tokens (clock : Nat → Nat) (st : DBState × Nat) : DBState × Nat :=
  let s1 := executemanyUpdateProtocolNull ASSETS_TO_WHITELIST st.1
  let ts := ts_now clock st.2
  let s2 := executemanyInsertCache
      (ASSETS_TO_WHITELIST.map fun asset_id => (SPAM_KEY, asset_id, ts.1)) s1
  (s2, ts.2)

/-- A fault model for the external store: for each parameter tuple of each of
the two statements, the store either executes it (`none`) or raises an error
(`some e`).  Modelled from the spec's store interface, whose execute calls can
fail with an underlying store error. -/
structure FaultModel where
  updErr : String → Option String
  insErr : String → Option String

/-- The fault model in which every execute call succeeds. -/
def noFaults : FaultModel := ⟨fun _ => none, fun _ => none⟩

/-- Fallible run of the executemany UPDATE: stops at the first parameter tuple
whose execution the store refuses, returning the raised error together with
the uncommitted store state at that point. -/
def executemanyUpdateF (fm : FaultModel) (ids : List String) (s : DBState) :
    Except (String × DBState) DBState :=
  match ids with
  | [] => .ok s
  | id :: rest =>
    match fm.updErr id with
    | some e => .error (e, s)
    | none => executemanyUpdateF fm rest (updateProtocolNull id s)

/-- Fallible run of the executemany INSERT OR IGNORE, analogous to
`executemanyUpdateF`; the fault model is consulted on the value column
(the asset identifier) of each parameter tuple. -/
def executemanyInsertF (fm : FaultModel) (rows : List (String × String × Nat)) (s : DBState) :
    Except (String × DBState) DBState :=
  match rows with
  | [] => .ok s
  | kvt :: rest =>
    match fm.insErr kvt.2.1 with
    | some e => .error (e, s)
    | none => executemanyInsertF fm rest (insertOrIgnoreCache kvt.1 kvt.2.1 kvt.2.2 s)

/-- Fallible transcription of `fix_detected_spam_tokens`: the body has no error
handling of its own, so a store error raised by either executemany call
escapes immediately, carrying the uncommitted state; on success the final
state and clock counter are returned. -/
def fix_detected_spam_tokensF (fm : FaultModel) (clock : Nat → Nat) (st : DBState × Nat) :
    Except (String × DBState) (DBState × Nat) :=
  match executemanyUpdateF fm ASSETS_TO_WHITELIST st.1 with
  | .error ep => .error ep
  | .ok s1 =>
    let ts := ts_now clock st.2
    match executemanyInsertF fm
        (ASSETS_TO_WHITELIST.map fun asset_id => (SPAM_KEY, asset_id, ts.1)) s1 with
    | .error ep => .error ep
    | .ok s2 => .ok (s2, ts.2)

/-- Modelled from the spec: `connection.write_ctx()`
(`rotkehlchen/db/drivers/gevent.py`, not under this file's source) opens one
write transaction around the action; on success the mutated state is
committed, on failure the transaction is rolled back — the uncommitted state
is discarded and the store keeps its pre-transaction state. -/
def write_ctx (s : DBState)
    (action : DBState → Except (String × DBState) (DBState × Nat)) :
    Except String (DBState × Nat) × DBState :=
  match action s with
  | .ok (s2, n2) => (.ok (s2, n2), s2)
  | .error (e, _) => (.error e, s)

/-- `migrate_to_v8` transcribed from `v7_v8.py`: run
`fix_detected_spam_tokens` on a write cursor inside one `write_ctx`
transaction.  The result pairs the outcome (the step's value or the
propagated error) with the committed store state. -/
def migrate_to_v8 (fm : FaultModel) (clock : Nat → Nat) (s : DBState) (n : Nat) :
    Except String (DBState × Nat) × DBState :=
  write_ctx s (fun s0 => fix_detected_spam_tokensF fm clock (s0, n))

/-- Modelled from the spec: the `enter_exit_debug_log` decorator
(`rotkehlchen/logging.py`, not under this file's source) wraps a function with
entry/exit debug logging for observability only; the log lines are out-of-band
and the wrapped call's result is returned as-is. -/
def enter_exit_debug_log {α β : Type} (name : String) (f : α → β) :
    α → List String × β :=
  fun a => (["Enter " ++ name, "Exit " ++ name], f a)

/-- Per-row effect of the whole UPDATE phase: a row whose identifier is listed
gets its protocol cleared, any other row is untouched. -/
def updRow (ids : List String) (r : EvmTokenRow) : EvmTokenRow :=
  if r.identifier ∈ ids then { r with protocol := none } else r

/-- The cache rows the INSERT phase adds on top of state `s`: one row per
listed identifier whose (key, identifier) pair is not already cached. -/
def missingCacheRows (s : DBState) (key : String) (ids : List String) (ts : Nat) :
    List CacheRow :=
  (ids.filter fun a => !cacheHasKeyValue s key a).map fun a => ⟨key, a, ts⟩

/-- A sample evm_tokens row: the first whitelisted identifier, flagged spam. -/
def demoRow : EvmTokenRow :=
  ⟨"eip155:1/erc20:0x2ecB13A8c458c379c4d9a7259e202De03c8F3D19", some "spam", "cols"⟩

/-- A sample row whose identifier is whitelisted but which carries a non-spam
protocol classification. -/
def demoRowU : EvmTokenRow :=
  ⟨"eip155:1/erc20:0xA0b73E1Ff0B80914AB6fe0444E65848C4C34450b", some "uniswap", "cols2"⟩

/-- A sample row whose identifier is not whitelisted. -/
def demoRowX : EvmTokenRow := ⟨"eip155:1/erc20:0xdead", some "curve", "cols3"⟩

/-- A small sample store used to exercise the theorems on concrete input. -/
def demoState : DBState :=
  ⟨[demoRow, demoRowU, demoRowX], [⟨"OTHER_KEY", "v", 5⟩], "tables"⟩

/-- A fault model whose store raises an error on every cache-insert execution
and on no update execution. -/
def demoInsFail : FaultModel := ⟨fun _ => none, fun _ => some "constraint failed"⟩

/-- A fault model whose store raises an error on every update execution. -/
def demoUpdFail : FaultModel := ⟨fun _ => some "boom", fun _ => none⟩

/-! ### Helper lemmas: characterizing the two executemany phases -/

/-- The 41 identifiers of `ASSETS_TO_WHITELIST` are pairwise distinct. -/
lemma assets_nodup : ASSETS_TO_WHITELIST.Nodup := by decide

lemma updRow_nil : updRow [] = fun r => r := by
  funext r
  simp [updRow]

lemma executemanyUpdate_eq (ids : List String) (s : DBState) :
    executemanyUpdateProtocolNull ids s =
      { s with evm_tokens := s.evm_tokens.map (updRow ids) } := by
  induction ids generalizing s with
  | nil =>
    show s = { s with evm_tokens := s.evm_tokens.map (updRow []) }
    rw [updRow_nil]
    simp
  | cons id rest ih =>
    rw [executemanyUpdateProtocolNull, ih]
    simp only [updateProtocolNull, List.map_map]
    congr 1
    apply List.map_congr_left
    intro r _
    by_cases h : r.identifier = id
    · simp only [Function.comp_apply, if_pos h, updRow, h, List.mem_cons, true_or, if_true]
      by_cases h2 : id ∈ rest <;> simp [h2]
    · simp only [Function.comp_apply, if_neg h, updRow, List.mem_cons]
      by_cases h2 : r.identifier ∈ rest <;> simp [h, h2]

lemma cacheHas_congr {s1 s2 : DBState} (h : s1.general_cache = s2.general_cache)
    (key value : String) : cacheHasKeyValue s1 key value = cacheHasKeyValue s2 key value := by
  simp [cacheHasKeyValue, h]

lemma cacheHas_append_single (s : DBState) (row : CacheRow) (key value : String) :
    cacheHasKeyValue { s with general_cache := s.general_cache ++ [row] } key value =
      (cacheHasKeyValue s key value || (decide (row.key = key) && decide (row.value = value))) := by
  simp [cacheHasKeyValue, List.any_append]

lemma executemanyInsert_eq (key : String) (ts : Nat) (ids : List String) (s : DBState)
    (hnd : ids.Nodup) :
    executemanyInsertCache (ids.map fun a => (key, a, ts)) s =
      { s with general_cache := s.general_cache ++ missingCacheRows s key ids ts } := by
  induction ids generalizing s with
  | nil =>
    simp only [List.map_nil, executemanyInsertCache, missingCacheRows, List.filter_nil,
      List.map_nil, List.append_nil]
  | cons id rest ih =>
    rw [List.map_cons]
    rw [show executemanyInsertCache ((key, id, ts) :: rest.map fun a => (key, a, ts)) s =
        executemanyInsertCache (rest.map fun a => (key, a, ts))
          (insertOrIgnoreCache key id ts s) from rfl]
    have hndr : rest.Nodup := hnd.of_cons
    have hid : id ∉ rest := (List.nodup_cons.mp hnd).1
    by_cases hc : cacheHasKeyValue s key id = true
    · rw [show insertOrIgnoreCache key id ts s = s by simp [insertOrIgnoreCache, hc]]
      rw [ih s hndr]
      congr 1
      simp only [missingCacheRows, List.filter_cons, hc]
      simp
    · have hc2 : cacheHasKeyValue s key id = false := by
        simpa using hc
      rw [show insertOrIgnoreCache key id ts s =
          { s with general_cache := s.general_cache ++ [⟨key, id, ts⟩] } by
        simp [insertOrIgnoreCache, hc2]]
      rw [ih _ hndr]
      simp only []
      congr 1
      have hmiss : missingCacheRows { s with general_cache := s.general_cache ++ [⟨key, id, ts⟩] }
          key rest ts = missingCacheRows s key rest ts := by
        unfold missingCacheRows
        congr 1
        apply List.filter_congr
        intro a ha
        rw [cacheHas_append_single]
        have : a ≠ id := fun h => hid (h ▸ ha)
        simp [this, Ne.symm this]
      rw [hmiss, List.append_assoc]
      congr 1
      simp only [missingCacheRows, List.filter_cons, hc2]
      simp

/-- Full characterization of one run of the step: the evm_tokens table is
mapped row-wise by `updRow`, the missing cache rows are appended stamped with
the clock reading `clock n`, every other component is untouched, and the clock
is consulted exactly once. -/
lemma fix_eq (clock : Nat → Nat) (s : DBState) (n : Nat) :
    fix_detected_spam_tokens clock (s, n) =
      ({ evm_tokens := s.evm_tokens.map (updRow ASSETS_TO_WHITELIST),
         general_cache := s.general_cache ++
           missingCacheRows s SPAM_KEY ASSETS_TO_WHITELIST (clock n),
         otherTables := s.otherTables }, n + 1) := by
  show (executemanyInsertCache
      (ASSETS_TO_WHITELIST.map fun asset_id => (SPAM_KEY, asset_id, clock n))
      (executemanyUpdateProtocolNull ASSETS_TO_WHITELIST s), n + 1) = _
  rw [executemanyUpdate_eq, executemanyInsert_eq _ _ _ _ assets_nodup]
  rfl

lemma executemanyUpdateF_noFaults (ids : List String) (s : DBState) :
    executemanyUpdateF noFaults ids s = .ok (executemanyUpdateProtocolNull ids s) := by
  induction ids generalizing s with
  | nil => rfl
  | cons id rest ih =>
    simp only [executemanyUpdateF, executemanyUpdateProtocolNull, noFaults]
    exact ih _

lemma executemanyInsertF_noFaults (rows : List (String × String × Nat)) (s : DBState) :
    executemanyInsertF noFaults rows s = .ok (executemanyInsertCache rows s) := by
  induction rows generalizing s with
  | nil => rfl
  | cons kvt rest ih =>
    simp only [executemanyInsertF, executemanyInsertCache, noFaults]
    exact ih _

/-- With a store that raises no error, the fallible transcription succeeds and
computes exactly the pure step. -/
lemma fixF_noFaults (clock : Nat → Nat) (st : DBState × Nat) :
    fix_detected_spam_tokensF noFaults clock st = .ok (fix_detected_spam_tokens clock st) := by
  unfold fix_detected_spam_tokensF fix_detected_spam_tokens
  simp only [executemanyUpdateF_noFaults, executemanyInsertF_noFaults]

lemma executemanyUpdateF_error (fm : FaultModel) (ids : List String) (s : DBState)
    (e : String) (p : DBState) (h : executemanyUpdateF fm ids s = .error (e, p)) :
    ∃ id ∈ ids, fm.updErr id = some e := by
  induction ids generalizing s with
  | nil => simp [executemanyUpdateF] at h
  | cons id rest ih =>
    cases hu : fm.updErr id with
    | none =>
      simp only [executemanyUpdateF, hu] at h
      obtain ⟨x, hx, he⟩ := ih _ h
      exact ⟨x, List.mem_cons_of_mem _ hx, he⟩
    | some e2 =>
      simp only [executemanyUpdateF, hu, Except.error.injEq, Prod.mk.injEq] at h
      exact ⟨id, List.mem_cons_self id rest, by rw [hu, h.1]⟩

lemma executemanyInsertF_error (fm : FaultModel) (rows : List (String × String × Nat))
    (s : DBState) (e : String) (p : DBState)
    (h : executemanyInsertF fm rows s = .error (e, p)) :
    ∃ kvt ∈ rows, fm.insErr kvt.2.1 = some e := by
  induction rows generalizing s with
  | nil => simp [executemanyInsertF] at h
  | cons kvt rest ih =>
    cases hu : fm.insErr kvt.2.1 with
    | none =>
      simp only [executemanyInsertF, hu] at h
      obtain ⟨x, hx, he⟩ := ih _ h
      exact ⟨x, List.mem_cons_of_mem _ hx, he⟩
    | some e2 =>
      simp only [executemanyInsertF, hu, Except.error.injEq, Prod.mk.injEq] at h
      exact ⟨kvt, List.mem_cons_self kvt rest, by rw [hu, h.1]⟩

/-- Every error the fallible step can return originates verbatim from the
store: it is the error the fault model raised on one of the listed
identifiers, in one of the two statements. -/
lemma fixF_error_origin (fm : FaultModel) (clock : Nat → Nat) (s : DBState) (n : Nat)
    (e : String) (p : DBState)
    (h : fix_detected_spam_tokensF fm clock (s, n) = .error (e, p)) :
    (∃ id ∈ ASSETS_TO_WHITELIST, fm.updErr id = some e) ∨
    (∃ id ∈ ASSETS_TO_WHITELIST, fm.insErr id = some e) := by
  unfold fix_detected_spam_tokensF at h
  cases hu : executemanyUpdateF fm ASSETS_TO_WHITELIST s with
  | error ep =>
    rw [hu] at h
    simp only [Except.error.injEq] at h
    left
    exact executemanyUpdateF_error fm _ s e p (by rw [hu, h])
  | ok s1 =>
    rw [hu] at h
    simp only [] at h
    cases hi : executemanyInsertF fm
        (ASSETS_TO_WHITELIST.map fun asset_id => (SPAM_KEY, asset_id, (ts_now clock n).1)) s1 with
    | error ep =>
      rw [hi] at h
      simp only [Except.error.injEq] at h
      right
      obtain ⟨kvt, hk, he⟩ := executemanyInsertF_error fm _ s1 e p (by rw [hi, h])
      obtain ⟨a, ha, rfl⟩ := List.mem_map.mp hk
      exact ⟨a, ha, he⟩
    | ok s2 =>
      rw [hi] at h
      simp at h

lemma fix_evm (clock : Nat → Nat) (s : DBState) (n : Nat) :
    (fix_detected_spam_tokens clock (s, n)).1.evm_tokens =
      s.evm_tokens.map (updRow ASSETS_TO_WHITELIST) := by
  rw [fix_eq]

lemma fix_cache (clock : Nat → Nat) (s : DBState) (n : Nat) :
    (fix_detected_spam_tokens clock (s, n)).1.general_cache =
      s.general_cache ++ missingCacheRows s SPAM_KEY ASSETS_TO_WHITELIST (clock n) := by
  rw [fix_eq]

lemma fix_other (clock : Nat → Nat) (s : DBState) (n : Nat) :
    (fix_detected_spam_tokens clock (s, n)).1.otherTables = s.otherTables := by
  rw [fix_eq]

lemma fix_counter (clock : Nat → Nat) (s : DBState) (n : Nat) :
    (fix_detected_spam_tokens clock (s, n)).2 = n + 1 := by
  rw [fix_eq]

lemma updRow_idem (ids : List String) (r : EvmTokenRow) :
    updRow ids (updRow ids r) = updRow ids r := by
  unfold updRow
  by_cases h : r.identifier ∈ ids <;> simp [h]

lemma cacheHas_mem_iff (s : DBState) (key value : String) :
    cacheHasKeyValue s key value = true ↔
      ∃ r ∈ s.general_cache, r.key = key ∧ r.value = value := by
  simp [cacheHasKeyValue, List.any_eq_true]

/-- After one run of the step, every listed identifier is cached under
`SPAM_ASSET_FALSE_POSITIVE`. -/
lemma cacheHas_after_fix (clock : Nat → Nat) (s : DBState) (n : Nat) (a : String)
    (ha : a ∈ ASSETS_TO_WHITELIST) :
    cacheHasKeyValue (fix_detected_spam_tokens clock (s, n)).1 SPAM_KEY a = true := by
  rw [cacheHas_mem_iff]
  by_cases hc : cacheHasKeyValue s SPAM_KEY a = true
  · obtain ⟨r, hr, hk, hv⟩ := (cacheHas_mem_iff s SPAM_KEY a).mp hc
    exact ⟨r, by rw [fix_cache]; exact List.mem_append_left _ hr, hk, hv⟩
  · have hc2 : cacheHasKeyValue s SPAM_KEY a = false := by simpa using hc
    refine ⟨⟨SPAM_KEY, a, clock n⟩, ?_, rfl, rfl⟩
    rw [fix_cache]
    refine List.mem_append_right _ ?_
    unfold missingCacheRows
    exact List.mem_map_of_mem _ (List.mem_filter.mpr ⟨ha, by simp [hc2]⟩)

/-- Filtering a duplicate-free list for one of its members, intersected with
any predicate that member satisfies, yields exactly that member. -/
lemma filter_and_eq_of_nodup {α : Type} [DecidableEq α] {l : List α} (hnd : l.Nodup) {id : α}
    (hid : id ∈ l) (q : α → Bool) (hq : q id = true) :
    l.filter (fun a => decide (a = id) && q a) = [id] := by
  induction l with
  | nil => cases hid
  | cons b rest ih =>
    have hbrest := List.nodup_cons.mp hnd
    rw [List.filter_cons]
    rcases List.mem_cons.mp hid with h | h
    · subst h
      have hcond : (decide (id = id) && q id) = true := by simp [hq]
      rw [if_pos hcond]
      have hrest : rest.filter (fun a => decide (a = id) && q a) = [] := by
        apply List.filter_eq_nil_iff.mpr
        intro a ha
        have : a ≠ id := fun hh => hbrest.1 (hh ▸ ha)
        simp [this]
      rw [hrest]
    · have hbid : ¬(b = id) := fun hb => hbrest.1 (hb ▸ h)
      have hcond : (decide (b = id) && q b) = false := by simp [hbid]
      rw [if_neg (by simp [hcond])]
      exact ih hbrest.2 h

/-- Re-running the step on its own output is a no-op on the store, for any
later clock readings. -/
lemma fix_idem (clock1 clock2 : Nat → Nat) (s : DBState) (n m : Nat) :
    (fix_detected_spam_tokens clock2 ((fix_detected_spam_tokens clock1 (s, n)).1, m)).1 =
      (fix_detected_spam_tokens clock1 (s, n)).1 := by
  have hmiss : missingCacheRows (fix_detected_spam_tokens clock1 (s, n)).1 SPAM_KEY
      ASSETS_TO_WHITELIST (clock2 m) = [] := by
    unfold missingCacheRows
    have hf : ASSETS_TO_WHITELIST.filter
        (fun a => !cacheHasKeyValue (fix_detected_spam_tokens clock1 (s, n)).1 SPAM_KEY a) = [] :=
      List.filter_eq_nil_iff.mpr fun a ha => by
        simp [cacheHas_after_fix clock1 s n a ha]
    rw [hf, List.map_nil]
  have hevm : ((fix_detected_spam_tokens clock1 (s, n)).1.evm_tokens).map
      (updRow ASSETS_TO_WHITELIST) = (fix_detected_spam_tokens clock1 (s, n)).1.evm_tokens := by
    rw [fix_evm, List.map_map]
    exact List.map_congr_left fun r _ => updRow_idem _ _
  have h2 := fix_eq clock2 (fix_detected_spam_tokens clock1 (s, n)).1 m
  rw [show (fix_detected_spam_tokens clock2 ((fix_detected_spam_tokens clock1 (s, n)).1, m)).1 =
      { evm_tokens := (fix_detected_spam_tokens clock1 (s, n)).1.evm_tokens.map
          (updRow ASSETS_TO_WHITELIST),
        general_cache := (fix_detected_spam_tokens clock1 (s, n)).1.general_cache ++
          missingCacheRows (fix_detected_spam_tokens clock1 (s, n)).1 SPAM_KEY
            ASSETS_TO_WHITELIST (clock2 m),
        otherTables := (fix_detected_spam_tokens clock1 (s, n)).1.otherTables } from by
    rw [h2]]
  rw [hmiss, List.append_nil, hevm]

/-- `migrate_to_v8` when the step fails: the error is surfaced verbatim and the
committed store is the pre-step store. -/
lemma migrate_eq_error (fm : FaultModel) (clock : Nat → Nat) (s : DBState) (n : Nat)
    (e : String) (p : DBState)
    (h : fix_detected_spam_tokensF fm clock (s, n) = .error (e, p)) :
    migrate_to_v8 fm clock s n = (.error e, s) := by
  unfold migrate_to_v8 write_ctx
  simp only [h]

/-- `migrate_to_v8` when the step succeeds: the step's result is committed. -/
lemma migrate_eq_ok (fm : FaultModel) (clock : Nat → Nat) (s : DBState) (n : Nat)
    (s2 : DBState) (n2 : Nat)
    (h : fix_detected_spam_tokensF fm clock (s, n) = .ok (s2, n2)) :
    migrate_to_v8 fm clock s n = (.ok (s2, n2), s2) := by
  unfold migrate_to_v8 write_ctx
  simp only [h]

/-! ### Claim theorems -/

/-- C1: for every initial store, running fix_detected_spam_tokens clears the
spam classification (sets the protocol column to NULL) of every evm_tokens row
whose identifier is one of the ASSETS_TO_WHITELIST identifiers, and for each
listed identifier not already recorded, inserts exactly one general_cache row
with key SPAM_ASSET_FALSE_POSITIVE, value that identifier, and last_queried_ts
the current timestamp, with insert-if-absent semantics. -/
theorem fix_clears_and_inserts_C1 (clock : Nat → Nat) (s : DBState) (n : Nat) :
    (∀ r ∈ (fix_detected_spam_tokens clock (s, n)).1.evm_tokens,
        r.identifier ∈ ASSETS_TO_WHITELIST → r.protocol = none) ∧
    (∀ id ∈ ASSETS_TO_WHITELIST, cacheHasKeyValue s SPAM_KEY id = false →
        (fix_detected_spam_tokens clock (s, n)).1.general_cache.filter
            (fun r => r.key = SPAM_KEY && r.value = id) =
          [⟨SPAM_KEY, id, clock n⟩]) := by
  constructor
  · intro r hr hrid
    rw [fix_evm] at hr
    obtain ⟨r0, hr0, rfl⟩ := List.mem_map.mp hr
    have hid0 : r0.identifier ∈ ASSETS_TO_WHITELIST := by
      by_cases h : r0.identifier ∈ ASSETS_TO_WHITELIST
      · exact h
      · simp [updRow, h] at hrid
    simp [updRow, hid0]
  · intro id hid hnc
    rw [fix_cache, List.filter_append]
    have hnc2 : (s.general_cache.any fun r => r.key = SPAM_KEY && r.value = id) = false := hnc
    have h1 : s.general_cache.filter (fun r => r.key = SPAM_KEY && r.value = id) = [] :=
      List.filter_eq_nil_iff.mpr (List.any_eq_false.mp hnc2)
    have h2 : (missingCacheRows s SPAM_KEY ASSETS_TO_WHITELIST (clock n)).filter
        (fun r => r.key = SPAM_KEY && r.value = id) = [⟨SPAM_KEY, id, clock n⟩] := by
      unfold missingCacheRows
      rw [List.filter_map]
      have hcong : ((fun r : CacheRow => r.key = SPAM_KEY && r.value = id) ∘
          (fun a : String => (⟨SPAM_KEY, a, clock n⟩ : CacheRow))) =
            fun a => decide (a = id) := by
        funext a
        simp [Function.comp]
      rw [hcong, List.filter_filter]
      rw [filter_and_eq_of_nodup assets_nodup hid _ (by simp [hnc])]
      rfl
    rw [h1, h2, List.nil_append]

/-- C2: re-running the step against a store that already contains some or all
of the cache rows inserts only the missing rows (each new row is keyed
SPAM_ASSET_FALSE_POSITIVE with a listed identifier that was absent), raises no
error, leaves every pre-existing cache row in place unchanged (the old cache
is a prefix of the new one), and running the step twice yields the same store
as running it once. -/
theorem fix_rerun_safe_C2 (clock1 clock2 : Nat → Nat) (s : DBState) (n m : Nat) :
    (∃ new, (fix_detected_spam_tokens clock1 (s, n)).1.general_cache =
        s.general_cache ++ new ∧
        ∀ r ∈ new, r.key = SPAM_KEY ∧ r.value ∈ ASSETS_TO_WHITELIST ∧
          cacheHasKeyValue s SPAM_KEY r.value = false) ∧
    fix_detected_spam_tokensF noFaults clock2
        ((fix_detected_spam_tokens clock1 (s, n)).1, m) =
      .ok (fix_detected_spam_tokens clock2 ((fix_detected_spam_tokens clock1 (s, n)).1, m)) ∧
    (fix_detected_spam_tokens clock2 ((fix_detected_spam_tokens clock1 (s, n)).1, m)).1 =
      (fix_detected_spam_tokens clock1 (s, n)).1 := by
  refine ⟨⟨missingCacheRows s SPAM_KEY ASSETS_TO_WHITELIST (clock1 n),
    fix_cache clock1 s n, ?_⟩, fixF_noFaults clock2 _, fix_idem clock1 clock2 s n m⟩
  intro r hr
  unfold missingCacheRows at hr
  obtain ⟨a, ha, rfl⟩ := List.mem_map.mp hr
  have haf := List.mem_filter.mp ha
  exact ⟨rfl, haf.1, by simpa using haf.2⟩

/-- C3: migrate_to_v8 performs the step's mutations inside one write
transaction: whenever the step fails at any point, every mutation is rolled
back and the post-failure store state equals the pre-step state. -/
theorem migrate_atomic_C3 (fm : FaultModel) (clock : Nat → Nat) (s : DBState) (n : Nat)
    (e : String) (h : (migrate_to_v8 fm clock s n).1 = .error e) :
    (migrate_to_v8 fm clock s n).2 = s := by
  cases hf : fix_detected_spam_tokensF fm clock (s, n) with
  | ok v =>
    obtain ⟨s2, n2⟩ := v
    rw [migrate_eq_ok fm clock s n s2 n2 hf] at h
    simp at h
  | error ep =>
    obtain ⟨e0, p0⟩ := ep
    rw [migrate_eq_error fm clock s n e0 p0 hf]

/-- C3 witness: with a store that accepts every update but refuses the first
cache insert, the migration fails after the update phase and the committed
store equals the initial store. -/
theorem migrate_atomic_C3_witness :
    (migrate_to_v8 demoInsFail (fun _ => 7) demoState 0).1 = .error "constraint failed" ∧
    (migrate_to_v8 demoInsFail (fun _ => 7) demoState 0).2 = demoState :=
  ⟨rfl, migrate_atomic_C3 demoInsFail (fun _ => 7) demoState 0 "constraint failed" rfl⟩

/-- C4: identifiers absent from evm_tokens cause no update and no error — the
step rewrites exactly the matching rows (all others are mapped to themselves),
caches every listed identifier regardless of presence in evm_tokens, and the
fault-free run completes without error. -/
theorem fix_absent_ok_C4 (clock : Nat → Nat) (s : DBState) (n : Nat) :
    (fix_detected_spam_tokens clock (s, n)).1.evm_tokens =
      s.evm_tokens.map (fun r =>
        if r.identifier ∈ ASSETS_TO_WHITELIST then { r with protocol := none } else r) ∧
    (∀ id ∈ ASSETS_TO_WHITELIST,
        cacheHasKeyValue (fix_detected_spam_tokens clock (s, n)).1 SPAM_KEY id = true) ∧
    fix_detected_spam_tokensF noFaults clock (s, n) =
      .ok (fix_detected_spam_tokens clock (s, n)) :=
  ⟨fix_evm clock s n, fun id hid => cacheHas_after_fix clock s n id hid,
    fixF_noFaults clock (s, n)⟩

/-- C5: any error raised by the store during the step's execute calls
propagates unmodified out of fix_detected_spam_tokens and migrate_to_v8: the
returned error is verbatim one raised by the store on some listed identifier,
and the migration surfaces exactly it. -/
theorem error_propagation_C5 (fm : FaultModel) (clock : Nat → Nat) (s : DBState) (n : Nat)
    (e : String) (p : DBState)
    (h : fix_detected_spam_tokensF fm clock (s, n) = .error (e, p)) :
    ((∃ id ∈ ASSETS_TO_WHITELIST, fm.updErr id = some e) ∨
      (∃ id ∈ ASSETS_TO_WHITELIST, fm.insErr id = some e)) ∧
    (migrate_to_v8 fm clock s n).1 = .error e := by
  refine ⟨fixF_error_origin fm clock s n e p h, ?_⟩
  rw [migrate_eq_error fm clock s n e p h]

/-- C5 witness: a store that raises on the first update makes the step and the
migration return that very error. -/
theorem error_propagation_C5_witness :
    fix_detected_spam_tokensF demoUpdFail (fun _ => 7) (demoState, 0) =
        .error ("boom", demoState) ∧
    (((∃ id ∈ ASSETS_TO_WHITELIST, demoUpdFail.updErr id = some "boom") ∨
      (∃ id ∈ ASSETS_TO_WHITELIST, demoUpdFail.insErr id = some "boom")) ∧
     (migrate_to_v8 demoUpdFail (fun _ => 7) demoState 0).1 = .error "boom") :=
  ⟨rfl, error_propagation_C5 demoUpdFail (fun _ => 7) demoState 0 "boom" demoState rfl⟩

/-- C6: the step mutates only the protocol column of listed evm_tokens rows
and appends at most N new rows to general_cache: other tables are unchanged,
every row keeps its identifier and other columns, unlisted rows are untouched,
listed rows change only their protocol, and the old cache is a prefix of the
new one extended by at most N rows. -/
theorem frame_effect_C6 (clock : Nat → Nat) (s : DBState) (n : Nat) :
    (fix_detected_spam_tokens clock (s, n)).1.otherTables = s.otherTables ∧
    List.Forall₂ (fun r2 r1 : EvmTokenRow =>
        r2.identifier = r1.identifier ∧ r2.otherCols = r1.otherCols ∧
        (r1.identifier ∉ ASSETS_TO_WHITELIST → r2 = r1) ∧
        (r1.identifier ∈ ASSETS_TO_WHITELIST → r2 = { r1 with protocol := none }))
      (fix_detected_spam_tokens clock (s, n)).1.evm_tokens s.evm_tokens ∧
    (∃ new, (fix_detected_spam_tokens clock (s, n)).1.general_cache =
        s.general_cache ++ new ∧ new.length ≤ ASSETS_TO_WHITELIST.length) := by
  refine ⟨fix_other clock s n, ?_,
    ⟨missingCacheRows s SPAM_KEY ASSETS_TO_WHITELIST (clock n), fix_cache clock s n, ?_⟩⟩
  · rw [fix_evm, List.forall₂_map_left_iff, List.forall₂_same]
    intro r _
    unfold updRow
    by_cases h : r.identifier ∈ ASSETS_TO_WHITELIST
    · simp [h]
    · simp [h]
  · unfold missingCacheRows
    rw [List.length_map]
    exact List.length_filter_le _ _

/-- C7: the enter_exit_debug_log decorator is transparent: for every function
and input the decorated call returns exactly the undecorated result — in
particular for the two decorated functions of this module — so it neither
alters control flow nor swallows or transforms errors. -/
theorem decorator_transparent_C7 :
    (∀ (α β : Type) (name : String) (f : α → β) (a : α),
        (enter_exit_debug_log name f a).2 = f a) ∧
    (∀ (fm : FaultModel) (clock : Nat → Nat) (st : DBState × Nat),
        (enter_exit_debug_log "fix_detected_spam_tokens"
          (fix_detected_spam_tokensF fm clock) st).2 = fix_detected_spam_tokensF fm clock st) ∧
    (∀ (fm : FaultModel) (clock : Nat → Nat) (s : DBState) (n : Nat),
        (enter_exit_debug_log "globaldb v7->v8 upgrade"
          (fun s0 => migrate_to_v8 fm clock s0 n) s).2 = migrate_to_v8 fm clock s n) :=
  ⟨fun _ _ _ _ _ => rfl, fun _ _ _ => rfl, fun _ _ _ _ => rfl⟩

/-- C8: ASSETS_TO_WHITELIST contains no duplicate identifiers: the entries at
any two distinct positions are different strings. -/
theorem assets_no_duplicates_C8 (i j : Fin ASSETS_TO_WHITELIST.length) (hij : i ≠ j) :
    ASSETS_TO_WHITELIST.get i ≠ ASSETS_TO_WHITELIST.get j := by
  intro heq
  exact hij (List.nodup_iff_injective_get.mp assets_nodup heq)

/-- C8 witness: the first two entries differ. -/
theorem assets_no_duplicates_C8_witness :
    ASSETS_TO_WHITELIST.get ⟨0, by decide⟩ ≠ ASSETS_TO_WHITELIST.get ⟨1, by decide⟩ :=
  assets_no_duplicates_C8 ⟨0, by decide⟩ ⟨1, by decide⟩ (by decide)

/-- C9: the update clears the protocol column unconditionally for every
matching identifier, without checking that the row was classified as spam: any
row of the store whose identifier is listed reappears with protocol NULL,
whatever protocol it carried. -/
theorem protocol_cleared_unconditionally_C9 (clock : Nat → Nat) (s : DBState) (n : Nat)
    (r : EvmTokenRow) (hr : r ∈ s.evm_tokens) (hid : r.identifier ∈ ASSETS_TO_WHITELIST) :
    { r with protocol := none } ∈ (fix_detected_spam_tokens clock (s, n)).1.evm_tokens := by
  rw [fix_evm]
  have h2 := List.mem_map_of_mem (updRow ASSETS_TO_WHITELIST) hr
  rwa [show updRow ASSETS_TO_WHITELIST r = { r with protocol := none } from by
    unfold updRow
    rw [if_pos hid]] at h2

/-- C9 witness: a listed row carrying the non-spam classification "uniswap" is
cleared to NULL as well. -/
theorem protocol_cleared_C9_witness :
    demoRowU ∈ demoState.evm_tokens ∧ demoRowU.identifier ∈ ASSETS_TO_WHITELIST ∧
    { demoRowU with protocol := none } ∈
      (fix_detected_spam_tokens (fun _ => 7) (demoState, 0)).1.evm_tokens :=
  ⟨by decide, by decide, protocol_cleared_unconditionally_C9 (fun _ => 7) demoState 0 demoRowU
    (by decide) (by decide)⟩

/-- C10: the timestamp provider is consulted exactly once per run (after the
update, whose outcome is clock-independent, and before the inserts), and that
one reading stamps every inserted cache row. -/
theorem timestamp_once_C10 (clock1 clock2 : Nat → Nat) (s : DBState) (n : Nat) :
    (fix_detected_spam_tokens clock1 (s, n)).2 = n + 1 ∧
    (∀ r ∈ (fix_detected_spam_tokens clock1 (s, n)).1.general_cache,
        r ∉ s.general_cache → r.last_queried_ts = clock1 n) ∧
    (fix_detected_spam_tokens clock1 (s, n)).1.evm_tokens =
      (fix_detected_spam_tokens clock2 (s, n)).1.evm_tokens := by
  refine ⟨fix_counter clock1 s n, ?_, by rw [fix_evm, fix_evm]⟩
  intro r hr hnotin
  rw [fix_cache] at hr
  rcases List.mem_append.mp hr with h | h
  · exact absurd h hnotin
  · unfold missingCacheRows at h
    obtain ⟨a, _, rfl⟩ := List.mem_map.mp h
    rfl

end V7V8
